import Mathlib

/-!
Shallow embedding of `src/ctc_tool_api.py` (CTC Budget Checker Tool API).

The only logic in the repository is the `check_ctc` request handler plus the
constant `health` handler.  We embed them as total Lean functions.

Python floats are modelled as IEEE-754 binary64 values
`nan | inf (sign) | finite (sign, M, E)` denoting `±M * 2 ^ E`
(`2^52 ≤ M < 2^53` for normals, `M < 2^52` with `E = -1074` for subnormals,
`M = 0, E = 0` for signed zeros), with the rational value given by `dblVal`.
`float(str)` is embedded as CPython implements it: the Unicode
digit-and-space transform (Unicode 14.0 tables, CPython 3.11), the ASCII
grammar with underscore separators and `inf`/`nan` spellings, and correctly
rounded (round-half-even) conversion of the exact decimal value to binary64,
with overflow to infinity and underflow to signed zero.  `f"{x}"` is embedded
as `repr` of the double: the shortest decimal digit string that rounds back
to the double (closest candidate when both grid neighbours round-trip), laid
out with Python's fixed/scientific threshold.  `str.strip()` uses the same
Unicode whitespace set as CPython.
-/

/-- Whitespace stripped by Python's `str.strip()` (Py_UNICODE_ISSPACE):
TAB..CR, FS..US, space, NEL, NBSP, OGHAM, U+2000..200A, LS, PS, NNBSP,
MMSP, IDSP. -/
def pyIsSpace (c : Char) : Bool :=
  decide ((9 ≤ c.toNat ∧ c.toNat ≤ 13) ∨ (28 ≤ c.toNat ∧ c.toNat ≤ 31) ∨
    c.toNat = 32 ∨ c.toNat = 133 ∨ c.toNat = 160 ∨ c.toNat = 5760 ∨
    (8192 ≤ c.toNat ∧ c.toNat ≤ 8202) ∨ c.toNat = 8232 ∨ c.toNat = 8233 ∨
    c.toNat = 8239 ∨ c.toNat = 8287 ∨ c.toNat = 12288)

/-- Embedding of Python `str.strip()`: drop whitespace from both ends. -/
def pyStrip (s : String) : String :=
  ⟨((s.data.dropWhile pyIsSpace).reverse.dropWhile pyIsSpace).reverse⟩

/-- Zero code points of every Unicode 14.0 `Nd` range (each range is the ten
consecutive digits 0-9), as used by CPython 3.11's `float()` digit
transform. -/
def pyDigitZeros : List Nat :=
  [0x30, 0x660, 0x6F0, 0x7C0, 0x966, 0x9E6, 0xA66, 0xAE6, 0xB66, 0xBE6,
   0xC66, 0xCE6, 0xD66, 0xDE6, 0xE50, 0xED0, 0xF20, 0x1040, 0x1090, 0x17E0,
   0x1810, 0x1946, 0x19D0, 0x1A80, 0x1A90, 0x1B50, 0x1BB0, 0x1C40, 0x1C50,
   0xA620, 0xA8D0, 0xA900, 0xA9D0, 0xA9F0, 0xAA50, 0xABF0, 0xFF10, 0x104A0,
   0x10D30, 0x11066, 0x110F0, 0x11136, 0x111D0, 0x112F0, 0x11450, 0x114D0,
   0x11650, 0x116C0, 0x11730, 0x118E0, 0x11950, 0x11C50, 0x11D50, 0x11DA0,
   0x16A60, 0x16AC0, 0x16B50, 0x1D7CE, 0x1D7D8, 0x1D7E2, 0x1D7EC, 0x1D7F6,
   0x1E140, 0x1E2F0, 0x1E950, 0x1FBF0]

/-- Decimal value of a Unicode `Nd` digit character, if it is one. -/
def uniDigit (c : Char) : Option Nat :=
  (pyDigitZeros.find? fun z => decide (z ≤ c.toNat ∧ c.toNat ≤ z + 9)).map
    fun z => c.toNat - z

/-- CPython's `_PyUnicode_TransformDecimalAndSpaceToASCII`, applied by
`float()` before parsing: whitespace becomes a space, Unicode decimal digits
become ASCII digits, other non-ASCII characters become `?` (which then fails
the parse). -/
def transformChar (c : Char) : Char :=
  if pyIsSpace c then ' '
  else
    match uniDigit c with
    | some d => Char.ofNat (48 + d)
    | none => if c.toNat < 128 then c else '?'

/-- Numeric value of an ASCII decimal digit character. -/
def digitVal (c : Char) : Nat := c.toNat - 48

/-- Consume a run of decimal digits, allowing a single underscore between two
digits (Python numeric-literal underscore rule).  Returns the accumulated
value, the number of digits consumed, and the remaining characters. -/
def digitsAux : List Char → Nat → Nat → Nat × Nat × List Char
  | [], acc, nd => (acc, nd, [])
  | c :: cs, acc, nd =>
    if c.isDigit then digitsAux cs (acc * 10 + digitVal c) (nd + 1)
    else if c = '_' ∧ nd ≠ 0 then
      match cs with
      | d :: cs2 =>
        if d.isDigit then digitsAux cs2 (acc * 10 + digitVal d) (nd + 1)
        else (acc, nd, c :: cs)
      | [] => (acc, nd, [c])
    else (acc, nd, c :: cs)

/-- Parse a (possibly empty) digit run with underscore separators. -/
def parseDigits (l : List Char) : Nat × Nat × List Char := digitsAux l 0 0

/-- Parse an optional exponent part `([eE][+-]?digits)`.  Returns the signed
exponent and the rest; `none` when an `e`/`E` marker is present but not
followed by at least one digit. -/
def parseExp (l : List Char) : Option (Int × List Char) :=
  match l with
  | c :: cs =>
    if c = 'e' ∨ c = 'E' then
      let sr : Int × List Char :=
        match cs with
        | '+' :: r => (1, r)
        | '-' :: r => (-1, r)
        | r => (1, r)
      let (v, nd, rest) := parseDigits sr.2
      if nd = 0 then none else some (sr.1 * (v : Int), rest)
    else some (0, l)
  | [] => some (0, [])

/-- Value space of Python `float()` results: NaN, signed infinity
(`inf true` is `-inf`), or a finite binary64 value `finite neg M E` denoting
`±M * 2 ^ E`. -/
inductive PyFloat where
  | nan : PyFloat
  | inf : Bool → PyFloat
  | finite : Bool → Nat → Int → PyFloat
deriving DecidableEq

/-- Signed mantissa of a finite double. -/
def sgnMul (neg : Bool) (M : Nat) : Int := if neg then -(M : Int) else (M : Int)

/-- The rational value denoted by the finite double `finite neg M E`. -/
def dblVal (neg : Bool) (M : Nat) (E : Int) : ℚ :=
  ((sgnMul neg M : Int) : ℚ) * (2 : ℚ) ^ E

/-- Number of decimal digits of `n` (1 for `n = 0`). -/
def digLen (n : Nat) : Nat := (Nat.toDigits 10 n).length

/-- Number of binary digits of `n` (0 for `n = 0`). -/
def bitLen (n : Nat) : Nat := if n = 0 then 0 else (Nat.toDigits 2 n).length

/-- Is `num / den ≥ 2 ^ t` (exact, integer arithmetic)? -/
def geTwoPow (num den : Nat) (t : Int) : Bool :=
  decide (den * 2 ^ (max t 0).toNat ≤ num * 2 ^ (max (-t) 0).toNat)

/-- Is `num / den ≥ 10 ^ t` (exact, integer arithmetic)? -/
def geTenPow (num den : Nat) (t : Int) : Bool :=
  decide (den * 10 ^ (max t 0).toNat ≤ num * 10 ^ (max (-t) 0).toNat)

/-- Correctly rounded (round-half-even) conversion of the exact decimal
`±a * 10 ^ k` to binary64, as CPython's `float()` performs on parsed decimal
strings: overflow to signed infinity, underflow to signed zero, subnormals
at `E = -1074`.  Values clearly out of binary64 range are clamped without
computing huge powers. -/
def roundDec (neg : Bool) (a : Nat) (k : Int) : PyFloat :=
  if a = 0 then .finite neg 0 0
  else
    let D : Int := digLen a
    if 310 ≤ D + k - 1 then .inf neg
    else if D + k ≤ -324 then .finite neg 0 0
    else
      let num := a * 10 ^ (max k 0).toNat
      let den := 10 ^ (max (-k) 0).toNat
      let t0 : Int := (bitLen num : Int) - (bitLen den : Int)
      let t : Int := if geTwoPow num den t0 then t0 else t0 - 1
      let E : Int := max (t - 52) (-1074)
      let N := num * 2 ^ (max (-E) 0).toNat
      let Dd := den * 2 ^ (max E 0).toNat
      let q := N / Dd
      let r := N % Dd
      let M := if Dd < 2 * r then q + 1
        else if 2 * r < Dd then q
        else if q % 2 = 1 then q + 1 else q
      let Mf := if M = 2 ^ 53 then 2 ^ 52 else M
      let Ef := if M = 2 ^ 53 then E + 1 else E
      if Mf = 0 then .finite neg 0 0
      else if 971 < Ef then .inf neg
      else .finite neg Mf Ef

/-- Embedding of Python `float(str)` on the transformed, space-trimmed
character list: optional sign; case-insensitive `inf`/`infinity`/`nan`;
otherwise `digits [. digits] [exponent]` with at least one mantissa digit and
nothing left over, correctly rounded to binary64. -/
def pyFloatOfChars (l : List Char) : Option PyFloat :=
  let sl : Bool × List Char :=
    match l with
    | '+' :: r => (false, r)
    | '-' :: r => (true, r)
    | r => (false, r)
  let neg := sl.1
  let l1 := sl.2
  let low := l1.map Char.toLower
  if low = "inf".data ∨ low = "infinity".data then some (.inf neg)
  else if low = "nan".data then some .nan
  else
    let (ip, d1, r1) := parseDigits l1
    let (fp, d2, r2) :=
      match r1 with
      | '.' :: r => parseDigits r
      | _ => ((0 : Nat), (0 : Nat), r1)
    if d1 + d2 = 0 then none
    else
      match parseExp r2 with
      | none => none
      | some (ex, r3) =>
        if r3 = [] then some (roundDec neg (ip * 10 ^ d2 + fp) (ex - (d2 : Int)))
        else none

/-- Embedding of Python `float(str)`: the CPython digit-and-space transform,
trimming of the (now ASCII) spaces the C-level parser skips, then the ASCII
grammar with binary64 rounding. -/
def pyFloatOfString (s : String) : Option PyFloat :=
  pyFloatOfChars
    ((((s.data.map transformChar).dropWhile (· = ' ')).reverse.dropWhile
      (· = ' ')).reverse)

/-- Strict order of two finite doubles, computed on integers: rescale both
signed mantissas to the smaller exponent and compare.  Agrees with `<` on the
denoted rationals (`dblLtB_eq`); signed zeros compare equal, as in IEEE-754. -/
def dblLtB (n1 : Bool) (M1 : Nat) (E1 : Int) (n2 : Bool) (M2 : Nat) (E2 : Int) : Bool :=
  decide (sgnMul n1 M1 * 2 ^ ((E1 - min E1 E2).toNat)
    < sgnMul n2 M2 * 2 ^ ((E2 - min E1 E2).toNat))

/-- Non-strict order of two finite doubles, computed on integers. -/
def dblLeB (n1 : Bool) (M1 : Nat) (E1 : Int) (n2 : Bool) (M2 : Nat) (E2 : Int) : Bool :=
  decide (sgnMul n1 M1 * 2 ^ ((E1 - min E1 E2).toNat)
    ≤ sgnMul n2 M2 * 2 ^ ((E2 - min E1 E2).toNat))

/-- Python `<` on floats: `nan` compares false with everything; `-inf` is
below and `inf` above every finite value. -/
def PyFloat.lt : PyFloat → PyFloat → Bool
  | .nan, _ => false
  | _, .nan => false
  | .inf n1, .inf n2 => n1 && !n2
  | .inf n1, .finite _ _ _ => n1
  | .finite _ _ _, .inf n2 => !n2
  | .finite n1 a ka, .finite n2 b kb => dblLtB n1 a ka n2 b kb

/-- Python `<=` on floats: `nan` compares false with everything. -/
def PyFloat.le : PyFloat → PyFloat → Bool
  | .nan, _ => false
  | _, .nan => false
  | .inf n1, .inf n2 => n1 == n2 || (n1 && !n2)
  | .inf n1, .finite _ _ _ => n1
  | .finite _ _ _, .inf n2 => !n2
  | .finite n1 a ka, .finite n2 b kb => dblLeB n1 a ka n2 b kb

/-- The double produced by a small Python `int` literal used in a comparison
with a float (exact for magnitudes below `2 ^ 53`). -/
def intDouble (n : Nat) : PyFloat := roundDec false n 0

/-- Sign of `n * 10 ^ j - A * 2 ^ F` (compare a decimal grid point with a
dyadic value), by scaling both to integers. -/
def decVsDyadic (n : Nat) (j : Int) (A : Nat) (F : Int) : Int :=
  (n * 10 ^ ((j - min j 0).toNat) * 2 ^ ((0 - min F 0).toNat) : Nat)
    - (A * 10 ^ ((0 - min j 0).toNat) * 2 ^ ((F - min F 0).toNat) : Nat)

/-- Does the decimal `n * 10 ^ j` lie in the rounding interval of the
positive double `M * 2 ^ E` (the set of reals that round to it under
round-half-even)?  The interval is a half-ulp on each side — a quarter-ulp
below when `M = 2 ^ 52` is a normal power of two — and closed exactly when
`M` is even. -/
def inRoundInterval (M : Nat) (E : Int) (n : Nat) (j : Int) : Bool :=
  let lr : Nat := if M = 2 ^ 52 ∧ -1074 < E then 1 else 2
  let lo := decVsDyadic n j (4 * M - lr) (E - 2)
  let hi := decVsDyadic n j (4 * M + 2) (E - 2)
  if M % 2 = 0 then decide (0 ≤ lo ∧ hi ≤ 0) else decide (0 < lo ∧ hi < 0)

/-- Shortest-round-trip digit selection for the positive double `M * 2 ^ E`
(whose decimal exponent is `t10`): try precisions `p = 1, 2, ...`; at each,
test the two `p`-digit grid neighbours of the value against the rounding
interval and take the closest admissible one (even mantissa on the exactly
central tie).  17 digits always suffice for binary64, so the fuel never runs
out on a genuine double; the fuel fallback returns the lower 18-digit
neighbour. -/
def shortestAux (M : Nat) (E t10 : Int) (p : Nat) : Nat → Nat × Int
  | 0 => (M * 2 ^ ((0 - min (E - (t10 - 17)) 0).toNat)
      / 2 ^ ((0 - min ((t10 - 17) - E) 0).toNat) / 10 ^ ((max (t10 - 17) 0).toNat),
      t10 - 17)
  | fuel + 1 =>
    let j := t10 - (p : Int) + 1
    let nLo := M * 2 ^ ((max E 0).toNat) * 10 ^ ((0 - min j 0).toNat)
      / (2 ^ ((max (-E) 0).toNat) * 10 ^ ((max j 0).toNat))
    let vLo := inRoundInterval M E nLo j
    let vHi := inRoundInterval M E (nLo + 1) j
    if vLo ∧ vHi then
      let mid := decVsDyadic (2 * nLo + 1) j (8 * M) (E - 2)
      if 0 < mid then (nLo, j)
      else if mid < 0 then (nLo + 1, j)
      else if nLo % 2 = 0 then (nLo, j) else (nLo + 1, j)
    else if vLo then (nLo, j)
    else if vHi then (nLo + 1, j)
    else shortestAux M E t10 (p + 1) fuel

/-- Strip trailing decimal zeros from the chosen digits, moving them into the
exponent. -/
def stripZeros : Nat → Nat → Int → Nat × Int
  | 0, n, j => (n, j)
  | fuel + 1, n, j =>
    if n ≠ 0 ∧ n % 10 = 0 then stripZeros fuel (n / 10) (j + 1) else (n, j)

/-- Exponent field of Python's scientific notation: sign and at least two
digits. -/
def expField (t : Int) : String :=
  (if t < 0 then "-" else "+")
    ++ (if t.natAbs < 10 then "0" else "") ++ toString t.natAbs

/-- Lay out significant digits `ds` with decimal exponent `t` the way
`repr(float)` does: fixed notation for `-4 ≤ t < 16` (integral values get a
trailing `.0`), scientific notation otherwise. -/
def renderDigits (ds : List Char) (t : Int) : String :=
  if -4 ≤ t ∧ t < 16 then
    if (ds.length : Int) - 1 ≤ t then
      ⟨ds⟩ ++ ⟨List.replicate (t - ((ds.length : Int) - 1)).toNat '0'⟩ ++ ".0"
    else if 0 ≤ t then
      ⟨ds.take (t + 1).toNat⟩ ++ "." ++ ⟨ds.drop (t + 1).toNat⟩
    else "0." ++ ⟨List.replicate (-t - 1).toNat '0'⟩ ++ ⟨ds⟩
  else
    ⟨ds.take 1⟩ ++ (if 1 < ds.length then "." ++ ⟨ds.drop 1⟩ else "")
      ++ "e" ++ expField t

/-- `repr` of a finite double: sign, shortest round-trip digits, layout. -/
def dblRepr (neg : Bool) (M : Nat) (E : Int) : String :=
  if M = 0 then (if neg then "-0.0" else "0.0")
  else
    let num := M * 2 ^ ((max E 0).toNat)
    let den := 2 ^ ((max (-E) 0).toNat)
    let t0 : Int := (digLen num : Int) - (digLen den : Int)
    let t10 : Int := if geTenPow num den t0 then t0 else t0 - 1
    let nj := shortestAux M E t10 1 18
    let nj2 := stripZeros 40 nj.1 nj.2
    let ds := Nat.toDigits 10 nj2.1
    (if neg then "-" else "")
      ++ renderDigits ds ((ds.length : Int) - 1 + nj2.2)

/-- Embedding of Python `f"{x}"` for a float value. -/
def PyFloat.fmt : PyFloat → String
  | .nan => "nan"
  | .inf b => if b then "-inf" else "inf"
  | .finite neg M E => dblRepr neg M E

/-- Response model of `POST /check-ctc` (`CTCResponse` in the source):
`result`, `message`, and an optional `error` code. -/
structure CTCResponse where
  result : String
  message : String
  error : Option String := none
deriving DecidableEq

/-- Embedding of the `check_ctc` handler body: strip both inputs, reject
empties, parse both as floats, reject parse failures, range-check against
`[0, 200]` (the int bounds are exactly representable, so the mixed int/float
comparisons equal double comparisons), then compare.  The Python
`except Exception` arm is unreachable here because no step of the embedded
body can raise, so the function is total by construction. -/
def check_ctc (expected_ctc max_budget : String) : CTCResponse :=
  let e_str := pyStrip expected_ctc
  let m_str := pyStrip max_budget
  if e_str = "" ∨ m_str = "" then
    { result := "Error"
      error := some "Missing parameters"
      message := "Both expected_ctc and max_budget are required. Proceeding without budget check." }
  else
    match pyFloatOfString e_str, pyFloatOfString m_str with
    | some e, some m =>
      if e.lt (intDouble 0) || (intDouble 200).lt e
          || m.lt (intDouble 0) || (intDouble 200).lt m then
        { result := "Error"
          error := some "Invalid range"
          message := "CTC values must be between 0 and 200 LPA. Proceeding without budget check." }
      else if e.le m then
        { result := "Within budget"
          message := "Expected CTC of " ++ e.fmt ++ " LPA is within the maximum budget of "
            ++ m.fmt ++ " LPA" }
      else
        { result := "Above budget"
          message := "Expected CTC of " ++ e.fmt ++ " LPA is above the maximum budget of "
            ++ m.fmt ++ " LPA" }
    | _, _ =>
      { result := "Error"
        error := some "Invalid number format"
        message := "expected_ctc and max_budget must be valid numbers. Proceeding without budget check." }

/-- Transport layer for `POST /check-ctc`, modelled from the spec (§6): a
handler that returns normally is delivered with HTTP status 200; `check_ctc`
always returns normally, so the status is the constant 200. -/
def handleCheckCtc (expected_ctc max_budget : String) : Nat × CTCResponse :=
  (200, check_ctc expected_ctc max_budget)

/-- Response model of `GET /health` (`HealthResponse` in the source). -/
structure HealthResponse where
  status : String
deriving DecidableEq

/-- Embedding of the `health` handler: constant response. -/
def health : HealthResponse := ⟨"healthy"⟩

/-- Transport layer for `GET /health`, modelled from the spec (§6): status
200 with the constant body. -/
def handleHealth : Nat × HealthResponse := (200, health)

/-- A batch of invocations of the handler: the service keeps no state, so a
run over a list of requests is a plain map. -/
def runCalls (l : List (String × String)) : List CTCResponse :=
  l.map (fun p => check_ctc p.1 p.2)

lemma pyFloatOfString_empty : pyFloatOfString "" = none := rfl

lemma dblVal_rescale (neg : Bool) (M : Nat) (E Em : Int) (h : Em ≤ E) :
    dblVal neg M E = ((sgnMul neg M * 2 ^ (E - Em).toNat : Int) : ℚ) * (2 : ℚ) ^ Em := by
  have hn : ((E - Em).toNat : Int) = E - Em := Int.toNat_of_nonneg (sub_nonneg.mpr h)
  unfold dblVal
  push_cast
  rw [mul_assoc, ← zpow_natCast (2 : ℚ) (E - Em).toNat, ← zpow_add₀ (by norm_num : (2:ℚ) ≠ 0),
    hn, sub_add_cancel]

lemma dblLtB_eq (n1 : Bool) (M1 : Nat) (E1 : Int) (n2 : Bool) (M2 : Nat) (E2 : Int) :
    dblLtB n1 M1 E1 n2 M2 E2 = decide (dblVal n1 M1 E1 < dblVal n2 M2 E2) := by
  simp only [dblLtB, decide_eq_decide]
  rw [dblVal_rescale n1 M1 E1 (min E1 E2) (min_le_left _ _),
    dblVal_rescale n2 M2 E2 (min E1 E2) (min_le_right _ _),
    mul_lt_mul_right (by positivity : (0:ℚ) < (2 : ℚ) ^ (min E1 E2))]
  exact (Int.cast_lt).symm

lemma dblLeB_eq (n1 : Bool) (M1 : Nat) (E1 : Int) (n2 : Bool) (M2 : Nat) (E2 : Int) :
    dblLeB n1 M1 E1 n2 M2 E2 = decide (dblVal n1 M1 E1 ≤ dblVal n2 M2 E2) := by
  simp only [dblLeB, decide_eq_decide]
  rw [dblVal_rescale n1 M1 E1 (min E1 E2) (min_le_left _ _),
    dblVal_rescale n2 M2 E2 (min E1 E2) (min_le_right _ _),
    mul_le_mul_right (by positivity : (0:ℚ) < (2 : ℚ) ^ (min E1 E2))]
  exact (Int.cast_le).symm

lemma intDouble_zero : intDouble 0 = .finite false 0 0 := rfl

lemma intDouble_200 : intDouble 200 = .finite false 7036874417766400 (-45) := by decide

lemma dblVal_false_eq (M n : Nat) (v : ℚ) (h : (M : ℚ) = v * 2 ^ n) :
    dblVal false M (-(n : Int)) = v := by
  unfold dblVal sgnMul
  simp only [Bool.false_eq_true, if_false, Int.cast_natCast, h]
  rw [mul_assoc, ← zpow_natCast (2 : ℚ) n, ← zpow_add₀ (by norm_num : (2:ℚ) ≠ 0)]
  simp

lemma dblVal_zero_val : dblVal false 0 0 = 0 := by
  norm_num [dblVal, sgnMul]

lemma dblVal_200_val : dblVal false 7036874417766400 (-45) = 200 :=
  dblVal_false_eq 7036874417766400 45 200 (by norm_num)


lemma check_ctc_missing (s t : String) (h : pyStrip s = "" ∨ pyStrip t = "") :
    check_ctc s t =
      { result := "Error"
        error := some "Missing parameters"
        message := "Both expected_ctc and max_budget are required. Proceeding without budget check." } := by
  simp only [check_ctc, if_pos h]

lemma check_ctc_format (s t : String)
    (hs : pyStrip s ≠ "") (ht : pyStrip t ≠ "")
    (h : pyFloatOfString (pyStrip s) = none ∨ pyFloatOfString (pyStrip t) = none) :
    check_ctc s t =
      { result := "Error"
        error := some "Invalid number format"
        message := "expected_ctc and max_budget must be valid numbers. Proceeding without budget check." } := by
  simp only [check_ctc, if_neg (not_or.mpr ⟨hs, ht⟩)]
  rcases h with h | h
  · rw [h]
  · rw [h]
    cases pyFloatOfString (pyStrip s) <;> rfl

lemma check_ctc_finite (s t : String) (ne : Bool) (a : Nat) (ka : Int)
    (nm : Bool) (b : Nat) (kb : Int)
    (he : pyFloatOfString (pyStrip s) = some (.finite ne a ka))
    (hm : pyFloatOfString (pyStrip t) = some (.finite nm b kb)) :
    check_ctc s t =
      if dblVal ne a ka < 0 ∨ 200 < dblVal ne a ka ∨ dblVal nm b kb < 0 ∨ 200 < dblVal nm b kb then
        { result := "Error"
          error := some "Invalid range"
          message := "CTC values must be between 0 and 200 LPA. Proceeding without budget check." }
      else if dblVal ne a ka ≤ dblVal nm b kb then
        { result := "Within budget"
          message := "Expected CTC of " ++ (PyFloat.finite ne a ka).fmt
            ++ " LPA is within the maximum budget of " ++ (PyFloat.finite nm b kb).fmt ++ " LPA" }
      else
        { result := "Above budget"
          message := "Expected CTC of " ++ (PyFloat.finite ne a ka).fmt
            ++ " LPA is above the maximum budget of " ++ (PyFloat.finite nm b kb).fmt ++ " LPA" } := by
  have hs : pyStrip s ≠ "" := by
    intro h; rw [h, pyFloatOfString_empty] at he; exact Option.noConfusion he
  have ht : pyStrip t ≠ "" := by
    intro h; rw [h, pyFloatOfString_empty] at hm; exact Option.noConfusion hm
  simp only [check_ctc, if_neg (not_or.mpr ⟨hs, ht⟩), he, hm, intDouble_zero, intDouble_200,
    PyFloat.lt, PyFloat.le, dblLtB_eq, dblLeB_eq, dblVal_zero_val, dblVal_200_val,
    Bool.or_eq_true, decide_eq_true_eq, or_assoc]

/-- C1: for inputs that trim to non-empty, parse as decimal numbers with both
parsed double values in `[0, 200]`: `e ≤ m` (equality included) yields
`Within budget` with the interpolated "is within" message, `e > m` yields
`Above budget` with the "is above" message, and the concrete pair `"85"`,
`"90"` yields the exact message from the spec. -/
theorem c1_compare_within_above (s t : String) (ne : Bool) (a : Nat) (ka : Int)
    (nm : Bool) (b : Nat) (kb : Int)
    (he : pyFloatOfString (pyStrip s) = some (.finite ne a ka))
    (hm : pyFloatOfString (pyStrip t) = some (.finite nm b kb))
    (h0e : 0 ≤ dblVal ne a ka) (h2e : dblVal ne a ka ≤ 200)
    (h0m : 0 ≤ dblVal nm b kb) (h2m : dblVal nm b kb ≤ 200) :
    (dblVal ne a ka ≤ dblVal nm b kb →
      check_ctc s t =
        { result := "Within budget"
          message := "Expected CTC of " ++ (PyFloat.finite ne a ka).fmt
            ++ " LPA is within the maximum budget of " ++ (PyFloat.finite nm b kb).fmt
            ++ " LPA" })
    ∧ (dblVal nm b kb < dblVal ne a ka →
      check_ctc s t =
        { result := "Above budget"
          message := "Expected CTC of " ++ (PyFloat.finite ne a ka).fmt
            ++ " LPA is above the maximum budget of " ++ (PyFloat.finite nm b kb).fmt
            ++ " LPA" })
    ∧ check_ctc "85" "90" =
        { result := "Within budget"
          message := "Expected CTC of 85.0 LPA is within the maximum budget of 90.0 LPA" } := by
  have hmain := check_ctc_finite s t ne a ka nm b kb he hm
  rw [if_neg (by push_neg; exact ⟨h0e, h2e, h0m, h2m⟩)] at hmain
  refine ⟨fun hle => ?_, fun hlt => ?_, by decide⟩
  · rw [hmain, if_pos hle]
  · rw [hmain, if_neg (not_le.mpr hlt)]

theorem c1_witness :
    check_ctc "85" "90" =
      { result := "Within budget"
        message := "Expected CTC of 85.0 LPA is within the maximum budget of 90.0 LPA" } :=
  (c1_compare_within_above "85" "90" false 5981343255101440 (-46) false 6333186975989760 (-46)
    (by decide) (by decide)
    (by norm_num [dblVal, sgnMul]) (by norm_num [dblVal, sgnMul])
    (by norm_num [dblVal, sgnMul]) (by norm_num [dblVal, sgnMul])).2.2

/-- C4: if either input trims to the empty string (whitespace-only included,
for the full Unicode whitespace set `str.strip()` removes), the operation
returns `Error` / `Missing parameters` with the required-fields message,
regardless of the other field. -/
theorem c4_missing_parameters (s t : String) (h : pyStrip s = "" ∨ pyStrip t = "") :
    check_ctc s t =
      { result := "Error"
        error := some "Missing parameters"
        message := "Both expected_ctc and max_budget are required. Proceeding without budget check." } :=
  check_ctc_missing s t h

theorem c4_witness :
    check_ctc "\u00A0" "40" =
      { result := "Error"
        error := some "Missing parameters"
        message := "Both expected_ctc and max_budget are required. Proceeding without budget check." } :=
  c4_missing_parameters "\u00A0" "40" (Or.inl (by decide))

/-- C5: if both inputs trim to non-empty strings and either fails to parse
under Python `float()` (Unicode digit forms included), the operation returns
`Error` / `Invalid number format` with the valid-numbers message. -/
theorem c5_invalid_number_format (s t : String)
    (hs : pyStrip s ≠ "") (ht : pyStrip t ≠ "")
    (h : pyFloatOfString (pyStrip s) = none ∨ pyFloatOfString (pyStrip t) = none) :
    check_ctc s t =
      { result := "Error"
        error := some "Invalid number format"
        message := "expected_ctc and max_budget must be valid numbers. Proceeding without budget check." } :=
  check_ctc_format s t hs ht h

theorem c5_witness :
    check_ctc "abc" "40" =
      { result := "Error"
        error := some "Invalid number format"
        message := "expected_ctc and max_budget must be valid numbers. Proceeding without budget check." } :=
  c5_invalid_number_format "abc" "40" (by decide) (by decide) (Or.inl (by decide))

/-- C3: for inputs that trim to non-empty and parse as decimal numbers, a
parsed double value outside the closed range `[0, 200]` yields `Error` /
`Invalid range` with the range message, while values inside the range
(boundaries `0` and `200` included) never produce that error. -/
theorem c3_invalid_range (s t : String) (ne : Bool) (a : Nat) (ka : Int)
    (nm : Bool) (b : Nat) (kb : Int)
    (he : pyFloatOfString (pyStrip s) = some (.finite ne a ka))
    (hm : pyFloatOfString (pyStrip t) = some (.finite nm b kb)) :
    ((dblVal ne a ka < 0 ∨ 200 < dblVal ne a ka ∨ dblVal nm b kb < 0 ∨ 200 < dblVal nm b kb) →
      check_ctc s t =
        { result := "Error"
          error := some "Invalid range"
          message := "CTC values must be between 0 and 200 LPA. Proceeding without budget check." })
    ∧ (0 ≤ dblVal ne a ka → dblVal ne a ka ≤ 200 → 0 ≤ dblVal nm b kb → dblVal nm b kb ≤ 200 →
      (check_ctc s t).error ≠ some "Invalid range") := by
  have hmain := check_ctc_finite s t ne a ka nm b kb he hm
  constructor
  · intro h
    rw [hmain, if_pos h]
  · intro h1 h2 h3 h4
    rw [hmain, if_neg (by push_neg; exact ⟨h1, h2, h3, h4⟩)]
    split <;> simp

theorem c3_witness :
    check_ctc "201" "40" =
      { result := "Error"
        error := some "Invalid range"
        message := "CTC values must be between 0 and 200 LPA. Proceeding without budget check." } :=
  (c3_invalid_range "201" "40" false 7072058789855232 (-45) false 5629499534213120 (-47)
    (by decide) (by decide)).1
    (Or.inr (Or.inl (by norm_num [dblVal, sgnMul])))

set_option maxRecDepth 8000 in
/-- C2: the operation is total — every input yields a `CTCResponse` delivered
with transport status 200 — and every `Error` outcome carries a populated
error code and a message telling the caller to proceed without a budget
check. -/
theorem c2_graceful_degradation (s t : String) :
    (handleCheckCtc s t).1 = 200 ∧
    (handleCheckCtc s t).2 = check_ctc s t ∧
    ((check_ctc s t).result = "Error" →
      (check_ctc s t).error ≠ none ∧
      "Proceeding without budget check.".data.isSuffixOf (check_ctc s t).message.data = true) := by
  refine ⟨rfl, rfl, ?_⟩
  simp only [check_ctc]
  split
  · intro _; exact ⟨by simp, by decide⟩
  · split
    · split
      · intro _; exact ⟨by simp, by decide⟩
      · split
        · intro h; exact absurd h (by decide : ¬("Within budget" = "Error"))
        · intro h; exact absurd h (by decide : ¬("Above budget" = "Error"))
    · intro _; exact ⟨by simp, by decide⟩

set_option maxRecDepth 8000 in
theorem c2_witness :
    (handleCheckCtc "abc" "").1 = 200 ∧
    (handleCheckCtc "abc" "").2 = check_ctc "abc" "" ∧
    ((check_ctc "abc" "").error ≠ none ∧
      "Proceeding without budget check.".data.isSuffixOf (check_ctc "abc" "").message.data = true) :=
  ⟨(c2_graceful_degradation "abc" "").1, (c2_graceful_degradation "abc" "").2.1,
    (c2_graceful_degradation "abc" "").2.2 (by decide)⟩

/-- C6: on every input, `result = "Error"` holds exactly when the `error`
field is populated, and the `Within budget` / `Above budget` outcomes carry
no error. -/
theorem c6_error_iff (s t : String) :
    ((check_ctc s t).result = "Error" ↔ (check_ctc s t).error ≠ none) ∧
    (((check_ctc s t).result = "Within budget" ∨ (check_ctc s t).result = "Above budget") →
      (check_ctc s t).error = none) := by
  simp only [check_ctc]
  split
  · exact ⟨by simp, by intro h; rcases h with h | h <;> exact absurd h (by decide)⟩
  · split
    · split
      · exact ⟨by simp, by intro h; rcases h with h | h <;> exact absurd h (by decide)⟩
      · split
        · exact ⟨⟨fun h => absurd h (by decide : ¬("Within budget" = "Error")),
            fun h => absurd rfl h⟩, fun _ => rfl⟩
        · exact ⟨⟨fun h => absurd h (by decide : ¬("Above budget" = "Error")),
            fun h => absurd rfl h⟩, fun _ => rfl⟩
    · exact ⟨by simp, by intro h; rcases h with h | h <;> exact absurd h (by decide)⟩

theorem c6_witness :
    ((check_ctc "85" "90").result = "Error" ↔ (check_ctc "85" "90").error ≠ none) ∧
    (((check_ctc "85" "90").result = "Within budget" ∨
        (check_ctc "85" "90").result = "Above budget") →
      (check_ctc "85" "90").error = none) :=
  c6_error_iff "85" "90"

/-- C9: extended Python float syntax — scientific notation, explicit plus
sign, underscore digit separators, and `inf`/`infinity` — is accepted by the
parsing step; `"1e1"` against `"20"` is within budget with the
`10.0`/`20.0` message, while `"inf"` parses and is then rejected by the
range check. -/
theorem c9_extended_number_forms :
    pyFloatOfString "1e1" = some (.finite false 5629499534213120 (-49)) ∧
    dblVal false 5629499534213120 (-49) = 10 ∧
    pyFloatOfString "+85" = some (.finite false 5981343255101440 (-46)) ∧
    pyFloatOfString "8_5" = some (.finite false 5981343255101440 (-46)) ∧
    dblVal false 5981343255101440 (-46) = 85 ∧
    pyFloatOfString "inf" = some (.inf false) ∧
    pyFloatOfString "infinity" = some (.inf false) ∧
    check_ctc "1e1" "20" =
      { result := "Within budget"
        message := "Expected CTC of 10.0 LPA is within the maximum budget of 20.0 LPA" } ∧
    check_ctc "inf" "20" =
      { result := "Error"
        error := some "Invalid range"
        message := "CTC values must be between 0 and 200 LPA. Proceeding without budget check." } :=
  ⟨by decide, dblVal_false_eq 5629499534213120 49 10 (by norm_num), by decide, by decide,
    dblVal_false_eq 5981343255101440 46 85 (by norm_num), by decide, by decide, by decide,
    by decide⟩

/-- C10: the health operation takes no inputs and always returns the constant
`{status := "healthy"}` with transport status 200. -/
theorem c10_health_constant :
    health = { status := "healthy" } ∧ handleHealth = (200, { status := "healthy" }) :=
  ⟨rfl, rfl⟩

lemma check_ctc_nan_e (s t : String) (nm : Bool) (b : Nat) (kb : Int)
    (he : pyFloatOfString (pyStrip s) = some .nan)
    (hm : pyFloatOfString (pyStrip t) = some (.finite nm b kb))
    (h0 : 0 ≤ dblVal nm b kb) (h2 : dblVal nm b kb ≤ 200) :
    check_ctc s t =
      { result := "Above budget"
        message := "Expected CTC of " ++ PyFloat.nan.fmt
          ++ " LPA is above the maximum budget of " ++ (PyFloat.finite nm b kb).fmt
          ++ " LPA" } := by
  have hs : pyStrip s ≠ "" := by
    intro h; rw [h, pyFloatOfString_empty] at he; exact Option.noConfusion he
  have ht : pyStrip t ≠ "" := by
    intro h; rw [h, pyFloatOfString_empty] at hm; exact Option.noConfusion hm
  have hcond : ¬((decide (dblVal nm b kb < 0) || decide (200 < dblVal nm b kb)) = true) := by
    simp only [Bool.or_eq_true, decide_eq_true_eq, not_or, not_lt]
    exact ⟨h0, h2⟩
  simp only [check_ctc, if_neg (not_or.mpr ⟨hs, ht⟩), he, hm, intDouble_zero, intDouble_200,
    PyFloat.lt, PyFloat.le, dblLtB_eq, dblVal_zero_val, dblVal_200_val,
    Bool.false_or, Bool.or_false]
  rw [if_neg hcond, if_neg (by decide : ¬(false = true))]

lemma check_ctc_nan_m (s t : String) (ne : Bool) (a : Nat) (ka : Int)
    (he : pyFloatOfString (pyStrip s) = some (.finite ne a ka))
    (hm : pyFloatOfString (pyStrip t) = some .nan)
    (h0 : 0 ≤ dblVal ne a ka) (h2 : dblVal ne a ka ≤ 200) :
    check_ctc s t =
      { result := "Above budget"
        message := "Expected CTC of " ++ (PyFloat.finite ne a ka).fmt
          ++ " LPA is above the maximum budget of " ++ PyFloat.nan.fmt
          ++ " LPA" } := by
  have hs : pyStrip s ≠ "" := by
    intro h; rw [h, pyFloatOfString_empty] at he; exact Option.noConfusion he
  have ht : pyStrip t ≠ "" := by
    intro h; rw [h, pyFloatOfString_empty] at hm; exact Option.noConfusion hm
  have hcond : ¬((decide (dblVal ne a ka < 0) || decide (200 < dblVal ne a ka)) = true) := by
    simp only [Bool.or_eq_true, decide_eq_true_eq, not_or, not_lt]
    exact ⟨h0, h2⟩
  simp only [check_ctc, if_neg (not_or.mpr ⟨hs, ht⟩), he, hm, intDouble_zero, intDouble_200,
    PyFloat.lt, PyFloat.le, dblLtB_eq, dblVal_zero_val, dblVal_200_val,
    Bool.false_or, Bool.or_false]
  rw [if_neg hcond, if_neg (by decide : ¬(false = true))]

/-- C7: `"nan"` (or `"NaN"`) as either field is not rejected: it parses, the
range check does not fire on it, the comparison with NaN is false, and the
result is `Above budget` (no error), for any in-range value on the other
side. -/
theorem c7_nan_above_budget (t : String) (nm : Bool) (b : Nat) (kb : Int)
    (hm : pyFloatOfString (pyStrip t) = some (.finite nm b kb))
    (h0 : 0 ≤ dblVal nm b kb) (h2 : dblVal nm b kb ≤ 200) :
    (check_ctc "nan" t).result = "Above budget" ∧ (check_ctc "nan" t).error = none ∧
    (check_ctc "NaN" t).result = "Above budget" ∧
    (∀ (s : String) (ne : Bool) (a : Nat) (ka : Int),
      pyFloatOfString (pyStrip s) = some (.finite ne a ka) →
      0 ≤ dblVal ne a ka → dblVal ne a ka ≤ 200 →
      (check_ctc s "nan").result = "Above budget" ∧ (check_ctc s "nan").error = none) := by
  refine ⟨?_, ?_, ?_, fun s ne a ka he h0e h2e => ?_⟩
  · rw [check_ctc_nan_e "nan" t nm b kb (by decide) hm h0 h2]
  · rw [check_ctc_nan_e "nan" t nm b kb (by decide) hm h0 h2]
  · rw [check_ctc_nan_e "NaN" t nm b kb (by decide) hm h0 h2]
  · rw [check_ctc_nan_m s "nan" ne a ka he (by decide) h0e h2e]
    exact ⟨rfl, rfl⟩

theorem c7_witness :
    (check_ctc "nan" "90").result = "Above budget" ∧ (check_ctc "nan" "90").error = none ∧
    (check_ctc "NaN" "90").result = "Above budget" ∧
    ((check_ctc "85" "nan").result = "Above budget" ∧ (check_ctc "85" "nan").error = none) := by
  have h := c7_nan_above_budget "90" false 6333186975989760 (-46) (by decide)
    (by norm_num [dblVal, sgnMul]) (by norm_num [dblVal, sgnMul])
  exact ⟨h.1, h.2.1, h.2.2.1,
    h.2.2.2 "85" false 5981343255101440 (-46) (by decide)
      (by norm_num [dblVal, sgnMul]) (by norm_num [dblVal, sgnMul])⟩

/-- C8: the check operation is a pure function of its two inputs: equal
inputs give equal responses, and in any batch of invocations the response at
a position is determined by that position's input alone, independent of the
calls before or after it. -/
theorem c8_stateless_pure (pre post : List (String × String)) (p q : String × String)
    (hpq : p = q) :
    (runCalls (pre ++ p :: post))[pre.length]? = some (check_ctc p.1 p.2) ∧
    check_ctc p.1 p.2 = check_ctc q.1 q.2 := by
  constructor
  · induction pre with
    | nil => simp [runCalls]
    | cons a l ih => simpa [runCalls] using ih
  · rw [hpq]

theorem c8_witness :
    (runCalls ([("1", "2")] ++ ("85", "90") :: [("3", "4")]))[
        [(("1" : String), ("2" : String))].length]? = some (check_ctc "85" "90") ∧
    check_ctc "85" "90" = check_ctc "85" "90" :=
  c8_stateless_pure [("1", "2")] [("3", "4")] ("85", "90") ("85", "90") rfl
